import Mathlib

/-!
Shallow embedding of `src/Telephus/telephus/protocol.py`: the connection
pool manager (`ManagedCassandraClientFactory`), the per-connection handler
(`ManagedThriftClientProtocol`, `AuthenticatedThriftClientProtocol`), and
the version-compatibility check (`match_thrift_version`).

Python exceptions and failure reasons are modelled by the inductive
`ErrKind`; Twisted deferreds carrying a success value or a failure are
modelled by `Except ErrKind Nat` (the `Nat` stands in for an arbitrary
opaque success value).
-/

namespace Telephus

/-- Failure reasons appearing in protocol.py: `InvalidRequestException`
(a thrift application error), `InvalidThriftRequest`, `ClientBusy`,
`APIMismatch`, a transport-level connection fault, the `UserError`
raised by `shutdown`, and any other exception. -/
inductive ErrKind where
  | invalidRequest
  | invalidThrift
  | clientBusy
  | apiMismatch
  | transportFault
  | shutdownError
  | other
deriving Repr, DecidableEq

/-- The outcome of one dispatched remote call: the fired deferred either
carries a result value or a failure. -/
inductive DispatchResult where
  | ok (v : Nat)
  | err (e : ErrKind)
deriving Repr, DecidableEq

/-! ## Version matching (protocol.py lines 23-35, `match_thrift_version`) -/

/-- A version string already split by `map(int, version.split('.'))` into
exactly three components (major, minor, patch); the string-to-int
conversion itself is the Python library's, outside the modelled core. -/
abbrev Version := Nat × Nat × Nat

/-- `match_thrift_version(ourversion, remoteversion)` (lines 23-35):
`(r_major == o_major) and (r_minor >= o_minor)`; the patch components are
bound in the source but never used. Ours first, as in the source. -/
def match_thrift_version (ourversion remoteversion : Version) : Bool :=
  remoteversion.1 == ourversion.1 && decide (ourversion.2.1 ≤ remoteversion.2.1)

/-! ## Connection handler (protocol.py lines 37-101) -/

/-- `ManagedThriftClientProtocol` state relevant to request handling:
`deferred` is the single in-flight slot (`None` when idle, holding the
in-flight call's deferred otherwise), `aborted` is set by `abort()`. -/
structure Handler where
  deferred : Option Nat
  aborted : Bool
deriving Repr, DecidableEq

/-- `ManagedThriftClientProtocol.submitRequest` (lines 86-97): if the
in-flight slot is empty, look up the method (`methodExists` models
`getattr(self.client, request.method, None)` being non-None), dispatch it,
record the returned deferred `reqId` in the slot and return it; a missing
method raises `InvalidThriftRequest`; a non-empty slot raises `ClientBusy`
before anything is dispatched. The returned `Handler` is the state after
the call (unchanged whenever an exception is raised). -/
def handlerSubmitRequest (h : Handler) (methodExists : Bool) (reqId : Nat) :
    Handler × Except ErrKind Nat :=
  if h.deferred.isNone then
    if methodExists then ({ h with deferred := some reqId }, .ok reqId)
    else (h, .error .invalidThrift)
  else (h, .error .clientBusy)

/-- `ManagedThriftClientProtocol._complete` (lines 81-84), attached to the
in-flight deferred with `addBoth` so it runs on success and on failure
alike: it clears the in-flight slot, calls `factory.clientIdle(self)`
(the middle `Bool` is `true` exactly when that report is made), and passes
the result `res` through unchanged. -/
def handlerComplete (h : Handler) (res : Except ErrKind Nat) :
    Handler × Bool × Except ErrKind Nat :=
  ({ h with deferred := none }, true, res)

/-! ## Handshake (protocol.py lines 48-73 and 103-111) -/

/-- The remote calls a handshake can make, in the order they are issued. -/
inductive SetupCall where
  | login
  | describe_version
  | set_keyspace
deriving Repr, DecidableEq

/-- The environment a handshake runs against: the local thrift version
(`constants.VERSION`) and the responses the remote gives to each call. -/
structure SetupEnv where
  localVersion : Version
  describe_version : Except ErrKind Version
  set_keyspace : Except ErrKind Unit
  login : Except ErrKind Unit
deriving Repr

/-- `ManagedThriftClientProtocol.setupConnection` (lines 57-69): a
deferred chain starting from `succeed(True)`; when `check_api_version`
is set, `describe_version` is called and `gotVersion` raises
`APIMismatch` on an incompatible remote version; when a keyspace is
configured, `set_keyspace` is chained after.  A failure anywhere in the
chain skips every later callback.  Returns the calls made, in order,
and the chain's final outcome. -/
def setupConnection (check_api_version : Bool) (keyspace : Option String)
    (env : SetupEnv) : List SetupCall × Except ErrKind Unit :=
  let afterVersion : List SetupCall × Except ErrKind Unit :=
    if check_api_version then
      match env.describe_version with
      | .error e => ([.describe_version], .error e)
      | .ok ver =>
        if match_thrift_version env.localVersion ver then
          ([.describe_version], .ok ())
        else
          ([.describe_version], .error .apiMismatch)
    else ([], .ok ())
  match keyspace, afterVersion with
  | some _, (calls, .ok _) =>
    match env.set_keyspace with
    | .ok _ => (calls ++ [.set_keyspace], .ok ())
    | .error e => (calls ++ [.set_keyspace], .error e)
  | _, r => r

/-- `AuthenticatedThriftClientProtocol.setupConnection` (lines 108-111):
an unconditional `login` with the configured credentials, then, only on
its success, the base `setupConnection` chain. -/
def authSetupConnection (check_api_version : Bool) (keyspace : Option String)
    (env : SetupEnv) : List SetupCall × Except ErrKind Unit :=
  match env.login with
  | .error e => ([.login], .error e)
  | .ok _ =>
    let r := setupConnection check_api_version keyspace env
    (.login :: r.1, r.2)

/-- What `connectionMade` (lines 48-55) and `setupFailed` (lines 71-73)
do with the handshake outcome. -/
structure HandshakeOutcome where
  /-- the success callback runs `factory.clientIdle(self, res)`, which
  registers the handler as a pool member and marks it idle -/
  registeredIdle : Bool
  /-- `setupFailed` runs `self.transport.loseConnection()` -/
  transportClosed : Bool
  /-- `setupFailed` reports the error via `factory.clientSetupFailed` -/
  setupFailedReported : Option ErrKind
deriving Repr, DecidableEq

/-- `connectionMade` attaches `clientIdle` / `setupFailed` as the
callback / errback of the `setupConnection` chain. -/
def handshakeOutcome (setup : List SetupCall × Except ErrKind Unit) :
    HandshakeOutcome :=
  match setup.2 with
  | .ok _ => ⟨true, false, none⟩
  | .error e => ⟨false, true, some e⟩

/-! ## Pool state (`ManagedCassandraClientFactory`, protocol.py lines 113-234) -/

/-- `ManagedThriftRequest` (lines 18-21). -/
structure ManagedThriftRequest where
  method : String
  args : List Nat
deriving Repr, DecidableEq

/-- One tuple `(request, deferred, retries)` as stored in the factory's
`DeferredQueue`; the caller's deferred is identified by `handle` and
`retries` is a Python `int`. -/
structure Item where
  req : ManagedThriftRequest
  handle : Nat
  retries : Int
deriving Repr, DecidableEq

instance : DecidableEq (Except ErrKind Nat) := fun a b =>
  match a, b with
  | .ok x, .ok y =>
    if h : x = y then isTrue (h ▸ rfl) else isFalse (fun hh => h (Except.ok.inj hh))
  | .error x, .error y =>
    if h : x = y then isTrue (h ▸ rfl) else isFalse (fun hh => h (Except.error.inj hh))
  | .ok _, .error _ => isFalse (fun hh => Except.noConfusion hh)
  | .error _, .ok _ => isFalse (fun hh => Except.noConfusion hh)

/-- A caller deferred in `_pending`: `result = none` while it has not
fired (`d.called` false), `some` once `callback`/`errback` ran. -/
structure PendingHandle where
  hid : Nat
  result : Option (Except ErrKind Nat)
deriving Repr, DecidableEq

/-- A member of the factory's `_protos` list together with whether its
transport is still connected. -/
structure ConnEntry where
  pid : Nat
  connected : Bool
deriving Repr, DecidableEq

/-- `ManagedCassandraClientFactory` state: `continueTrying` is the
reconnecting-factory flag cleared by `stopTrying()`, `_protos` the
member list, `_pending` the unresolved caller deferreds, `queue` the
`DeferredQueue` contents, `request_retries` the pool default budget. -/
structure PoolState where
  continueTrying : Bool
  protos : List ConnEntry
  pending : List PendingHandle
  queue : List Item
  request_retries : Int
deriving Repr, DecidableEq

/-- `ManagedCassandraClientFactory.pushRequest` (lines 221-226):
`retries = retries or self.request_retries` (Python `or`: `None` and `0`
are falsy, so only a nonzero explicit argument overrides the default),
then append a fresh deferred `newId` to `_pending` and put
`(request, d, retries)` on the queue. -/
def pushRequest (s : PoolState) (req : ManagedThriftRequest)
    (retries : Option Int) (newId : Nat) : PoolState × Nat :=
  let r : Int :=
    match retries with
    | none => s.request_retries
    | some v => if v = 0 then s.request_retries else v
  ({ s with pending := s.pending ++ [⟨newId, none⟩],
            queue := s.queue ++ [⟨req, newId, r⟩] }, newId)

/-- `ManagedCassandraClientFactory.clientGone` (lines 171-175):
`self._protos.remove(proto)` with the `ValueError` for an absent element
swallowed — so remove the first matching entry, or do nothing. -/
def clientGone (s : PoolState) (p : Nat) : PoolState :=
  { s with protos := s.protos.eraseP (fun c => c.pid == p) }

/-- The effect of `shutdown` on one pending deferred (lines 233-234):
`if not d.called: d.errback(UserError(string="Shutdown requested"))`. -/
def shutdownResolve (h : PendingHandle) : PendingHandle :=
  match h.result with
  | none => { h with result := some (.error .shutdownError) }
  | some _ => h

/-- `ManagedCassandraClientFactory.shutdown` (lines 228-234):
`stopTrying()` clears `continueTrying`; every registered proto's
transport is closed; every not-yet-fired pending deferred is errbacked
with the shutdown `UserError`. -/
def shutdown (s : PoolState) : PoolState :=
  { s with continueTrying := false,
           protos := s.protos.map (fun c => { c with connected := false }),
           pending := s.pending.map shutdownResolve }

/-! ## Request queue / retry engine
(`ManagedCassandraClientFactory.submitRequest`, protocol.py lines 193-219) -/

/-- The test in `reqError` (lines 195-196) as written:
`isinstance(err, InvalidRequestException) or
 isinstance(err, InvalidThriftRequest) or r < 1`, where `r` is the
remaining-retries value already decremented by `_process`, reading the
two `isinstance` tests as tests on the kind of the failure.  At runtime
they do not behave that way — see `failureNonRetryable` for the
classification the program actually performs on its errback argument.
On transport faults, successes, and exhausted budgets the two
classifiers agree. -/
def nonRetryable (e : ErrKind) (r : Int) : Bool :=
  e == .invalidRequest || e == .invalidThrift || decide (r < 1)

/-- What `reqError`'s test computes at runtime: `reqError` is installed
with `addCallbacks` as an errback (line 215-218), and a Twisted errback
always receives a `twisted.python.failure.Failure` wrapping the
exception (`Deferred.errback` wraps raw exceptions, `defer.fail()` on
line 213 builds a `Failure`, and `_complete` passes it through
unchanged).  A `Failure` is not an instance of
`InvalidRequestException` or of `InvalidThriftRequest`, so both
`isinstance` tests on lines 195-196 are always false and only `r < 1`
decides; the kind of the wrapped exception is irrelevant. -/
def failureNonRetryable (_e : ErrKind) (r : Int) : Bool :=
  decide (r < 1)

/-- One run of `_process` (lines 204-218) on the item popped from the
queue, together with the `reqSuccess`/`reqError` callback that fires when
the dispatched call completes.  `proto` is the connection the pool paired
with the item; if it is no longer in `_protos` the item is put back on
the queue unchanged.  Otherwise the request is dispatched and `retries`
is decremented; `outcome` is how the dispatched deferred fires (the
synchronous-raise path, lines 209-213, aborts the proto and turns the
raised exception into an immediate errback, so it is also an `.err`
outcome).  `reqSuccess` / a non-retryable `reqError` fire the caller's
deferred and remove it from `_pending`; a retryable error re-enqueues
`(request, deferred, retries)` at the queue tail.  Returns the new pool
state and the list of caller-deferred firings `(handle, result)` the step
performed. -/
def processItem (s : PoolState) (proto : Nat) (item : Item)
    (outcome : DispatchResult) : PoolState × List (Nat × Except ErrKind Nat) :=
  if (s.protos.map ConnEntry.pid).contains proto = false then
    ({ s with queue := s.queue ++ [item] }, [])
  else
    let r := item.retries - 1
    match outcome with
    | .ok v =>
      ({ s with pending := s.pending.eraseP (fun h => h.hid == item.handle) },
       [(item.handle, .ok v)])
    | .err e =>
      if nonRetryable e r then
        ({ s with pending := s.pending.eraseP (fun h => h.hid == item.handle) },
         [(item.handle, .error e)])
      else
        ({ s with queue := s.queue ++ [{ item with retries := r }] }, [])

/-- The engine's behaviour on one request served by a sole connection
that stays registered throughout: attempt `attempt` is dispatched and
fires as `oracle attempt`; a retryable failure re-enqueues with the
decremented budget and the sole idle connection immediately picks the
item up again.  Returns the total number of attempts made and the list
of results delivered to the caller's deferred. -/
def runSingle (oracle : Nat → DispatchResult) (attempt : Nat) (retries : Int) :
    Nat × List (Except ErrKind Nat) :=
  let r := retries - 1
  match oracle attempt with
  | .ok v => (attempt + 1, [.ok v])
  | .err e =>
    if h : nonRetryable e r = true then (attempt + 1, [.error e])
    else runSingle oracle (attempt + 1) r
termination_by retries.toNat
decreasing_by
  simp only [nonRetryable, Bool.or_eq_true, beq_iff_eq, decide_eq_true_eq,
    not_or] at h
  omega

/-- `runSingle` under the classification the program actually performs
at runtime (`failureNonRetryable`): the same single-connection
dispatch-and-requeue loop, with every failure — its kind included —
retried until the decremented budget drops below 1. -/
def runSingleActual (oracle : Nat → DispatchResult) (attempt : Nat)
    (retries : Int) : Nat × List (Except ErrKind Nat) :=
  let r := retries - 1
  match oracle attempt with
  | .ok v => (attempt + 1, [.ok v])
  | .err e =>
    if h : failureNonRetryable e r = true then (attempt + 1, [.error e])
    else runSingleActual oracle (attempt + 1) r
termination_by retries.toNat
decreasing_by
  simp only [failureNonRetryable, decide_eq_true_eq] at h
  omega

/-! ## Helper lemmas -/

/-- Bounds on a single-connection run: starting at attempt index
`attempt`, the run makes at least one and at most `retries.toNat + 1`
further attempts, and fires the caller's deferred exactly once. -/
theorem runSingle_spec (oracle : Nat → DispatchResult) :
    ∀ (n : Nat) (retries : Int) (attempt : Nat), retries.toNat ≤ n →
      attempt + 1 ≤ (runSingle oracle attempt retries).1 ∧
      (runSingle oracle attempt retries).1 ≤ attempt + retries.toNat + 1 ∧
      (runSingle oracle attempt retries).2.length = 1 := by
  intro n
  induction n with
  | zero =>
    intro retries attempt hle
    rw [runSingle]
    cases ho : oracle attempt with
    | ok v => simp
    | err e =>
      have hnr : nonRetryable e (retries - 1) = true := by
        simp only [nonRetryable, Bool.or_eq_true, beq_iff_eq, decide_eq_true_eq]
        omega
      simp [hnr]
  | succ n ih =>
    intro retries attempt hle
    rw [runSingle]
    cases ho : oracle attempt with
    | ok v => simp
    | err e =>
      by_cases hnr : nonRetryable e (retries - 1) = true
      · simp [hnr]
      · simp only [hnr, Bool.false_eq_true, dite_false]
        have hge : 1 ≤ retries - 1 := by
          simp only [nonRetryable, Bool.or_eq_true, beq_iff_eq,
            decide_eq_true_eq, not_or] at hnr
          omega
        have h2 : (retries - 1).toNat ≤ n := by omega
        obtain ⟨a, b, c⟩ := ih (retries - 1) (attempt + 1) h2
        exact ⟨by omega, by omega, c⟩

/-- After erasing the first entry with pid `p` from a list whose pids are
distinct, no entry with pid `p` remains. -/
theorem eraseP_pid_not_mem (p : Nat) :
    ∀ (l : List ConnEntry), (l.map ConnEntry.pid).Nodup →
      ∀ c ∈ l.eraseP (fun c => c.pid == p), c.pid ≠ p := by
  intro l
  induction l with
  | nil => intro _ c hc; simp [List.eraseP] at hc
  | cons x xs ih =>
    intro hnd c hc
    simp only [List.map_cons, List.nodup_cons] at hnd
    rw [List.eraseP_cons] at hc
    by_cases hx : (x.pid == p) = true
    · simp only [hx, cond_true] at hc
      have hxp : x.pid = p := by simpa using hx
      intro hcp
      exact hnd.1 (hxp ▸ hcp ▸ List.mem_map_of_mem ConnEntry.pid hc)
    · simp only [hx, Bool.false_eq_true, cond_false] at hc
      rcases List.mem_cons.mp hc with rfl | hc2
      · simpa using hx
      · exact ih hnd.2 c hc2

/-- `shutdownResolve` is idempotent: a deferred fired by one shutdown is
left alone by the `if not d.called` guard of a later one. -/
theorem shutdownResolve_idem (h : PendingHandle) :
    shutdownResolve (shutdownResolve h) = shutdownResolve h := by
  cases hr : h.result <;> simp [shutdownResolve, hr]

/-! ## Claim theorems -/

/-- C4: `match_thrift_version` accepts a (local, remote) pair iff the
major components are equal and the remote minor is ≥ the local minor;
the patch components are ignored; for local 2.1.0 it accepts 2.3.1 and
rejects 3.0.0 and 2.0.0; and with API-checking enabled a rejected pair
fails the handshake with an API-mismatch error (transport closed, setup
failure reported, handler not registered). -/
theorem match_thrift_version_accepts_iff :
    (∀ our remote : Version,
       match_thrift_version our remote = true ↔
         (remote.1 = our.1 ∧ our.2.1 ≤ remote.2.1)) ∧
    (∀ our remote : Version, ∀ p q : Nat,
       match_thrift_version (our.1, our.2.1, p) (remote.1, remote.2.1, q)
         = match_thrift_version our remote) ∧
    match_thrift_version (2, 1, 0) (2, 3, 1) = true ∧
    match_thrift_version (2, 1, 0) (3, 0, 0) = false ∧
    match_thrift_version (2, 1, 0) (2, 0, 0) = false ∧
    (∀ (ks : Option String) (sk lg : Except ErrKind Unit) (our remote : Version),
       match_thrift_version our remote = false →
       handshakeOutcome (setupConnection true ks ⟨our, .ok remote, sk, lg⟩)
         = ⟨false, true, some .apiMismatch⟩) := by
  refine ⟨?_, ?_, by decide, by decide, by decide, ?_⟩
  · intro our remote
    simp [match_thrift_version]
  · intro our remote p q
    rfl
  · intro ks sk lg our remote hm
    cases ks <;> simp [setupConnection, handshakeOutcome, hm]

/-- C4 witness: the handshake-failure conjunct applied to local 2.1.0
and remote 3.0.0 with a keyspace configured. -/
theorem match_thrift_version_accepts_iff_witness :
    handshakeOutcome (setupConnection true (some "ks")
      ⟨(2, 1, 0), .ok (3, 0, 0), .ok (), .ok ()⟩)
      = ⟨false, true, some .apiMismatch⟩ :=
  match_thrift_version_accepts_iff.2.2.2.2.2 (some "ks") (.ok ()) (.ok ())
    (2, 1, 0) (3, 0, 0) (by decide)

/-- C6: submitting to a handler with an in-flight request fails with
`ClientBusy`, dispatches nothing and leaves the handler — in particular
the in-flight slot — unchanged; submitting to an idle handler records
the new request as the single in-flight request and returns its
deferred. -/
theorem handlerSubmitRequest_busy :
    (∀ (h : Handler) (m : Bool) (req d0 : Nat),
       h.deferred = some d0 →
       handlerSubmitRequest h m req = (h, .error .clientBusy)) ∧
    (∀ (h : Handler) (req : Nat),
       h.deferred = none →
       handlerSubmitRequest h true req
         = ({ h with deferred := some req }, .ok req)) := by
  constructor
  · intro h m req d0 hd
    simp [handlerSubmitRequest, hd]
  · intro h req hd
    simp [handlerSubmitRequest, hd]

/-- C6 witness: a busy handler (in-flight deferred 5) rejects request 9
unchanged; an idle handler accepts it. -/
theorem handlerSubmitRequest_busy_witness :
    handlerSubmitRequest ⟨some 5, false⟩ true 9
      = (⟨some 5, false⟩, .error .clientBusy) ∧
    handlerSubmitRequest ⟨none, false⟩ true 9 = (⟨some 9, false⟩, .ok 9) :=
  ⟨handlerSubmitRequest_busy.1 ⟨some 5, false⟩ true 9 5 rfl,
   handlerSubmitRequest_busy.2 ⟨none, false⟩ 9 rfl⟩

/-- C7: whatever way the remote call terminates (`res` is success or
failure alike), `_complete` clears the in-flight slot, reports the
handler idle to the pool, passes the result through unchanged, and the
handler can then accept exactly one new submission. -/
theorem handlerComplete_reports_idle :
    ∀ (h : Handler) (res : Except ErrKind Nat) (req : Nat),
      (handlerComplete h res).1.deferred = none ∧
      (handlerComplete h res).2.1 = true ∧
      (handlerComplete h res).2.2 = res ∧
      handlerSubmitRequest (handlerComplete h res).1 true req
        = ({ h with deferred := some req }, .ok req) := by
  intro h res req
  refine ⟨rfl, rfl, rfl, ?_⟩
  simp [handlerComplete, handlerSubmitRequest]

/-- C9: `clientGone` is idempotent: when the handler is present (pool
members are distinct) it is removed; calling it for an absent or
never-registered handler changes nothing and raises no error. -/
theorem clientGone_idempotent :
    (∀ (s : PoolState) (p : Nat),
       (∀ c ∈ s.protos, c.pid ≠ p) → clientGone s p = s) ∧
    (∀ (s : PoolState) (p : Nat),
       (s.protos.map ConnEntry.pid).Nodup →
       ∀ c ∈ (clientGone s p).protos, c.pid ≠ p) ∧
    (∀ (s : PoolState) (p : Nat),
       (s.protos.map ConnEntry.pid).Nodup →
       clientGone (clientGone s p) p = clientGone s p) := by
  have habs : ∀ (s : PoolState) (p : Nat),
      (∀ c ∈ s.protos, c.pid ≠ p) → clientGone s p = s := by
    intro s p h
    have he : s.protos.eraseP (fun c => c.pid == p) = s.protos :=
      List.eraseP_of_forall_not (fun a ha => by simp [h a ha])
    simp [clientGone, he]
  refine ⟨habs, ?_, ?_⟩
  · intro s p hnd
    exact eraseP_pid_not_mem p s.protos hnd
  · intro s p hnd
    exact habs (clientGone s p) p (eraseP_pid_not_mem p s.protos hnd)

/-- C9 witness: removing handler 1 from a two-member pool, twice. -/
theorem clientGone_idempotent_witness :
    clientGone (clientGone ⟨true, [⟨1, true⟩, ⟨2, true⟩], [], [], 0⟩ 1) 1
      = clientGone ⟨true, [⟨1, true⟩, ⟨2, true⟩], [], [], 0⟩ 1 ∧
    clientGone ⟨true, [⟨2, true⟩], [], [], 0⟩ 1
      = ⟨true, [⟨2, true⟩], [], [], 0⟩ := by
  constructor
  · exact clientGone_idempotent.2.2 ⟨true, [⟨1, true⟩, ⟨2, true⟩], [], [], 0⟩ 1
      (by decide)
  · exact clientGone_idempotent.1 ⟨true, [⟨2, true⟩], [], [], 0⟩ 1 (by decide)

/-- C10: `pushRequest` with an explicit retry argument of 0 (or `None`)
enqueues the pool's default budget; only a nonzero explicit argument
overrides it; hence with a nonzero pool default no enqueued item can
carry a zero budget. -/
theorem pushRequest_zero_uses_default :
    ∀ (s : PoolState) (req : ManagedThriftRequest) (i : Nat),
      ((pushRequest s req (some 0) i).1.queue
         = s.queue ++ [⟨req, i, s.request_retries⟩]) ∧
      ((pushRequest s req none i).1.queue
         = s.queue ++ [⟨req, i, s.request_retries⟩]) ∧
      (∀ v : Int, v ≠ 0 →
         (pushRequest s req (some v) i).1.queue = s.queue ++ [⟨req, i, v⟩]) ∧
      (s.request_retries ≠ 0 →
         ∀ r : Option Int, ∃ x : Int,
           (pushRequest s req r i).1.queue = s.queue ++ [⟨req, i, x⟩] ∧
           x ≠ 0) := by
  intro s req i
  refine ⟨by simp [pushRequest], by simp [pushRequest], ?_, ?_⟩
  · intro v hv
    simp [pushRequest, hv]
  · intro hd r
    match r with
    | none => exact ⟨s.request_retries, by simp [pushRequest], hd⟩
    | some v =>
      by_cases hv : v = 0
      · exact ⟨s.request_retries, by simp [pushRequest, hv], hd⟩
      · exact ⟨v, by simp [pushRequest, hv], hv⟩

/-- C10 witness: pool default 4: an explicit 0 and `None` both enqueue
budget 4, an explicit 7 enqueues 7, and with the default nonzero the
enqueued budget is nonzero. -/
theorem pushRequest_zero_uses_default_witness :
    ((pushRequest ⟨true, [], [], [], 4⟩ ⟨"get", []⟩ (some 0) 0).1.queue
       = [⟨⟨"get", []⟩, 0, 4⟩]) ∧
    ((pushRequest ⟨true, [], [], [], 4⟩ ⟨"get", []⟩ none 0).1.queue
       = [⟨⟨"get", []⟩, 0, 4⟩]) ∧
    ((pushRequest ⟨true, [], [], [], 4⟩ ⟨"get", []⟩ (some 7) 0).1.queue
       = [⟨⟨"get", []⟩, 0, 7⟩]) ∧
    (∃ x : Int,
       (pushRequest ⟨true, [], [], [], 4⟩ ⟨"get", []⟩ (some 0) 0).1.queue
         = [⟨⟨"get", []⟩, 0, x⟩] ∧ x ≠ 0) := by
  obtain ⟨h1, h2, h3, h4⟩ :=
    pushRequest_zero_uses_default ⟨true, [], [], [], 4⟩ ⟨"get", []⟩ 0
  refine ⟨by simpa using h1, by simpa using h2,
          by simpa using h3 7 (by decide), ?_⟩
  obtain ⟨x, hx, hx0⟩ := h4 (by decide) (some 0)
  exact ⟨x, by simpa using hx, hx0⟩

/-- C3: after `shutdown` reconnection is disabled and no registered
handler's transport remains connected; every pending deferred that had
not fired is errbacked with the shutdown error, every already-fired one
is left untouched (never a second delivery); a second `shutdown` is a
no-op on the state. -/
theorem shutdown_resolves_all_pending :
    ∀ s : PoolState,
      (shutdown s).continueTrying = false ∧
      (∀ c ∈ (shutdown s).protos, c.connected = false) ∧
      (shutdown s).pending = s.pending.map shutdownResolve ∧
      (∀ h ∈ s.pending, h.result = none →
         shutdownResolve h = { h with result := some (.error .shutdownError) }) ∧
      (∀ (h : PendingHandle) (x : Except ErrKind Nat), h.result = some x →
         shutdownResolve h = h) ∧
      (∀ h ∈ (shutdown s).pending, h.result.isSome) ∧
      shutdown (shutdown s) = shutdown s := by
  intro s
  refine ⟨rfl, ?_, rfl, ?_, ?_, ?_, ?_⟩
  · intro c hc
    simp only [shutdown, List.mem_map] at hc
    obtain ⟨a, -, rfl⟩ := hc
    rfl
  · intro h _ hr
    simp [shutdownResolve, hr]
  · intro h x hr
    simp [shutdownResolve, hr]
  · intro h hc
    simp only [shutdown, List.mem_map] at hc
    obtain ⟨a, -, rfl⟩ := hc
    cases hr : a.result <;> simp [shutdownResolve, hr]
  · simp only [shutdown, List.map_map]
    congr 1
    · exact List.map_congr_left (fun a _ => shutdownResolve_idem a)

/-- C3 witness: a pool with one connected member and two pending
deferreds, one unresolved and one already resolved with value 3. -/
theorem shutdown_resolves_all_pending_witness :
    (shutdown ⟨true, [⟨1, true⟩], [⟨0, none⟩, ⟨1, some (.ok 3)⟩], [], 0⟩).protos
        = [⟨1, false⟩] ∧
    shutdownResolve ⟨0, none⟩ = ⟨0, some (.error .shutdownError)⟩ ∧
    shutdownResolve ⟨1, some (.ok 3)⟩ = ⟨1, some (.ok 3)⟩ ∧
    shutdown (shutdown ⟨true, [⟨1, true⟩], [⟨0, none⟩, ⟨1, some (.ok 3)⟩], [], 0⟩)
        = shutdown ⟨true, [⟨1, true⟩], [⟨0, none⟩, ⟨1, some (.ok 3)⟩], [], 0⟩ := by
  obtain ⟨-, h2, -, h4, h5, -, h7⟩ := shutdown_resolves_all_pending
    ⟨true, [⟨1, true⟩], [⟨0, none⟩, ⟨1, some (.ok 3)⟩], [], 0⟩
  refine ⟨?_, ?_, ?_, h7⟩
  · have := h2 ⟨1, false⟩ (by decide)
    decide
  · exact h4 ⟨0, none⟩ (by simp) rfl
  · exact h5 ⟨1, some (.ok 3)⟩ (.ok 3) rfl

/-- C5: when the matched connection is no longer a pool member, the
popped `(request, deferred, retries)` tuple goes back on the queue tail
unchanged: the budget is not decremented, no deferred fires, `_pending`
and the member list are untouched, and the item is not lost. -/
theorem processItem_stale_match_requeues :
    ∀ (s : PoolState) (proto : Nat) (item : Item) (o : DispatchResult),
      (s.protos.map ConnEntry.pid).contains proto = false →
      processItem s proto item o = ({ s with queue := s.queue ++ [item] }, []) := by
  intro s proto item o hm
  unfold processItem
  rw [if_pos hm]

/-- C5 witness: handler 1 left a pool whose sole member is handler 2
while item (req "get", deferred 0, retries 4) was queued. -/
theorem processItem_stale_match_requeues_witness :
    processItem ⟨true, [⟨2, true⟩], [⟨0, none⟩], [], 0⟩ 1
        ⟨⟨"get", []⟩, 0, 4⟩ (.err .transportFault)
      = (⟨true, [⟨2, true⟩], [⟨0, none⟩], [⟨⟨"get", []⟩, 0, 4⟩], 0⟩, []) :=
  processItem_stale_match_requeues ⟨true, [⟨2, true⟩], [⟨0, none⟩], [], 0⟩ 1
    ⟨⟨"get", []⟩, 0, 4⟩ (.err .transportFault) (by decide)

/-- C2 (code bug): the classification `reqError` actually performs on
its errback argument — a Twisted `Failure` wrapper, never the wrapped
exception — makes both `isinstance` tests of lines 195-196 always
false, so only `r < 1` decides; a request whose every attempt fails
with an invalid-request error, pushed with retries=5 on a sole
connection, is therefore re-enqueued at decremented budgets 4, 3, 2, 1
and the failure reaches the caller only after 5 attempts, not after the
1 attempt the fail-fast classification prescribes. -/
theorem reqError_invalid_request_retried :
    (∀ (e : ErrKind) (r : Int), failureNonRetryable e r = true ↔ r < 1) ∧
    failureNonRetryable .invalidRequest 4 = false ∧
    runSingleActual (fun _ => .err .invalidRequest) 0 5
      = (5, [.error .invalidRequest]) ∧
    runSingleActual (fun _ => .err .invalidRequest) 0 5
      ≠ (1, [.error .invalidRequest]) := by
  have h5 : runSingleActual (fun _ => .err .invalidRequest) 0 5
      = (5, [.error .invalidRequest]) := by
    simp [runSingleActual, failureNonRetryable]
  refine ⟨?_, by decide, h5, by rw [h5]; decide⟩
  intro e r
  simp [failureNonRetryable]

/-- C1 counterexample: a request pushed with retries=2 on a sole
connection that fails with a transport fault twice and would succeed on
a third attempt does not resolve with success after 3 attempts: the
engine delivers the transport failure after exactly 2 attempts (the
budget is decremented before `reqError` tests `r < 1`, so retries=N
yields at most N attempts, not N+1). -/
theorem submitRequest_retries_two_counterexample :
    runSingle (fun n => if n < 2 then .err .transportFault else .ok 7) 0 2
      = (2, [.error .transportFault]) ∧
    runSingle (fun n => if n < 2 then .err .transportFault else .ok 7) 0 2
      ≠ (3, [.ok 7]) := by
  have h : runSingle (fun n => if n < 2 then .err .transportFault else .ok 7) 0 2
      = (2, [.error .transportFault]) := by
    simp [runSingle, nonRetryable]
  exact ⟨h, by rw [h]; decide⟩

/-- C1 (amended): for every request with retry budget N the engine makes
between 1 and N+1 dispatch attempts and exactly one outcome reaches the
caller's deferred; each retryable failure re-enqueues the tuple with the
budget decremented once; and the success-on-third-attempt scenario on a
sole connection requires retries=3: the first two attempts fail with a
transport fault, the third succeeds, and the caller receives success
after exactly 3 attempts. -/
theorem submitRequest_attempt_bounds :
    (∀ (oracle : Nat → DispatchResult) (N : Int),
       1 ≤ (runSingle oracle 0 N).1 ∧
       (runSingle oracle 0 N).1 ≤ N.toNat + 1 ∧
       (runSingle oracle 0 N).2.length = 1) ∧
    (∀ (s : PoolState) (proto : Nat) (item : Item) (e : ErrKind),
       (s.protos.map ConnEntry.pid).contains proto = true →
       nonRetryable e (item.retries - 1) = false →
       processItem s proto item (.err e)
         = ({ s with
                queue := s.queue ++ [{ item with retries := item.retries - 1 }] },
            [])) ∧
    runSingle (fun n => if n < 2 then .err .transportFault else .ok 7) 0 3
      = (3, [.ok 7]) := by
  refine ⟨?_, ?_, by simp [runSingle, nonRetryable]⟩
  · intro oracle N
    simpa using runSingle_spec oracle N.toNat N 0 le_rfl
  · intro s proto item e hm hnr
    unfold processItem
    rw [if_neg (by rw [hm]; simp)]
    dsimp only
    rw [if_neg (by simp [hnr])]

/-- C1 witness: the bounds at a concrete oracle and budget, and the
decrement-on-retryable-failure equation at a concrete pool state. -/
theorem submitRequest_attempt_bounds_witness :
    (1 ≤ (runSingle (fun _ => .err .transportFault) 0 2).1 ∧
     (runSingle (fun _ => .err .transportFault) 0 2).1 ≤ 3 ∧
     (runSingle (fun _ => .err .transportFault) 0 2).2.length = 1) ∧
    processItem ⟨true, [⟨2, true⟩], [⟨0, none⟩], [], 0⟩ 2
        ⟨⟨"get", []⟩, 0, 9⟩ (.err .transportFault)
      = (⟨true, [⟨2, true⟩], [⟨0, none⟩], [⟨⟨"get", []⟩, 0, 8⟩], 0⟩, []) := by
  constructor
  · simpa using submitRequest_attempt_bounds.1 (fun _ => .err .transportFault) 2
  · have := submitRequest_attempt_bounds.2.1
      ⟨true, [⟨2, true⟩], [⟨0, none⟩], [], 0⟩ 2
      ⟨⟨"get", []⟩, 0, 9⟩ .transportFault (by decide) (by decide)
    simpa using this

/-- C8: handshake steps run in order with early exit on the first
failure: for an authenticated handler the login runs first and only on
its success does the base sequence run; with API checking enabled the
version check runs next, and a keyspace selection runs last when
configured; a disabled check or absent keyspace skips the corresponding
call; every failing outcome closes the transport, reports setup failure
and leaves the handler unregistered, and only full success registers the
handler idle. -/
theorem setupConnection_sequence :
    (∀ (check : Bool) (ks : Option String) (lv : Version)
       (dv : Except ErrKind Version) (sk : Except ErrKind Unit) (e : ErrKind),
       authSetupConnection check ks ⟨lv, dv, sk, .error e⟩
         = ([.login], .error e)) ∧
    (∀ (check : Bool) (ks : Option String) (lv : Version)
       (dv : Except ErrKind Version) (sk : Except ErrKind Unit),
       authSetupConnection check ks ⟨lv, dv, sk, .ok ()⟩
         = (.login :: (setupConnection check ks ⟨lv, dv, sk, .ok ()⟩).1,
            (setupConnection check ks ⟨lv, dv, sk, .ok ()⟩).2)) ∧
    (∀ (ks : Option String) (lv : Version) (sk lg : Except ErrKind Unit)
       (e : ErrKind),
       setupConnection true ks ⟨lv, .error e, sk, lg⟩
         = ([.describe_version], .error e)) ∧
    (∀ (ks : Option String) (sk lg : Except ErrKind Unit),
       setupConnection true ks ⟨(2, 1, 0), .ok (3, 0, 0), sk, lg⟩
         = ([.describe_version], .error .apiMismatch)) ∧
    (∀ (lv : Version) (dv : Except ErrKind Version) (sk lg : Except ErrKind Unit),
       setupConnection false none ⟨lv, dv, sk, lg⟩ = ([], .ok ())) ∧
    (∀ (sk lg : Except ErrKind Unit),
       setupConnection true none ⟨(2, 1, 0), .ok (2, 3, 1), sk, lg⟩
         = ([.describe_version], .ok ())) ∧
    (authSetupConnection true (some "ks") ⟨(2, 1, 0), .ok (2, 3, 1), .ok (), .ok ()⟩
       = ([.login, .describe_version, .set_keyspace], .ok ())) ∧
    (∀ (lg : Except ErrKind Unit) (e : ErrKind),
       setupConnection true (some "ks") ⟨(2, 1, 0), .ok (2, 3, 1), .error e, lg⟩
         = ([.describe_version, .set_keyspace], .error e)) ∧
    (∀ (calls : List SetupCall) (e : ErrKind),
       handshakeOutcome (calls, .error e) = ⟨false, true, some e⟩) ∧
    (∀ (calls : List SetupCall),
       handshakeOutcome (calls, .ok ()) = ⟨true, false, none⟩) := by
  refine ⟨fun _ _ _ _ _ _ => rfl, fun _ _ _ _ _ => rfl, ?_, ?_,
          fun _ _ _ _ => rfl, fun _ _ => rfl, rfl, fun _ _ => rfl,
          fun _ _ => rfl, fun _ => rfl⟩
  · intro ks lv sk lg e
    cases ks <;> rfl
  · intro ks sk lg
    cases ks <;> rfl

end Telephus
